import Mathlib

/-!
Shallow embedding of the knowledge-bot RAG pipeline
(`knowledge_bot.py`, `utils/oci_embedding.py`, `utils/oci_chat.py`,
`utils/oracle_db.py`).

Modelling conventions:
* Text is `List Char`; embedding vectors are `List ℚ` (the hosted service
  returns floats whose exact values never matter to the claims, only their
  count and the distances the database computes from them).
* The cosine distance computed by the database (`vector_distance(..., COSINE)`)
  is an abstract parameter `dist : Vec → Vec → ℚ`; all properties hold for
  every distance function.
* Calls to hosted services (embedding, chat) and database statements that can
  raise are modelled by `Except Unit` values / boolean failure flags supplied
  as inputs; `Except.error` is the "the call raised" case.
* The durable database state is a `DBState` (jobs and chunks); SQL statements
  are interpreted by `execute_query`, which mirrors
  `DatabaseManager.execute_query` (a `commit` flag, commit defaults to false;
  SELECT statements never change durable state, DML changes it only when
  committed).
-/

/-- Embedding vector: fixed-dimension float array, abstracted to rationals. -/
abbrev Vec := List ℚ

/-- One row of `doc_ingest_jobs` (the fields the queries touch). -/
structure IngestJob where
  job_id : Nat
  object_name : String
  deriving Repr, DecidableEq

/-- One row of `doc_chunks` (the fields the queries touch).
`embed_vector` is `none` when the column is SQL NULL. -/
structure Chunk where
  job_id : Nat
  chunk_id : Nat
  chunk_text : List Char
  embed_vector : Option Vec
  deriving Repr, DecidableEq

/-- Durable (committed) database state: the two tables. -/
structure DBState where
  jobs : List IngestJob
  chunks : List Chunk
  deriving Repr, DecidableEq

/-- A row produced by the vector-search SQL in `search_chunks_by_doc`
(job_id, chunk_id, `DBMS_LOB.SUBSTR(chunk_text, 8000, 1)`,
`vector_distance(embed_vector, :query_vector, COSINE)`, object_name),
as packed into a dict by the Python list comprehension. -/
structure QueryResult where
  job_id : Nat
  chunk_id : Nat
  chunk_text : List Char
  similarity : ℚ
  object_name : String
  deriving Repr, DecidableEq

/-- `FROM doc_chunks c JOIN doc_ingest_jobs j ON j.job_id = c.job_id
WHERE j.object_name = :doc_name AND c.embed_vector IS NOT NULL`:
the inner join followed by the WHERE filter. -/
def joinedRows (st : DBState) (doc_name : String) : List (Chunk × IngestJob) :=
  (st.chunks.flatMap fun c =>
    (st.jobs.filter fun j => j.job_id == c.job_id).map fun j => (c, j)).filter
    fun cj => cj.2.object_name == doc_name && cj.1.embed_vector.isSome

/-- The SELECT list of the vector-search SQL applied to one joined row:
`DBMS_LOB.SUBSTR(c.chunk_text, 8000, 1)` is the prefix of at most 8000
characters; the similarity is the cosine distance to the query vector. -/
def selectRow (dist : Vec → Vec → ℚ) (query_vector : Vec)
    (cj : Chunk × IngestJob) : QueryResult :=
  { job_id := cj.1.job_id
    chunk_id := cj.1.chunk_id
    chunk_text := cj.1.chunk_text.take 8000
    similarity := dist (cj.1.embed_vector.getD []) query_vector
    object_name := cj.2.object_name }

/-- The ordering relation of `ORDER BY similarity` (ascending). -/
def bySimilarity (a b : QueryResult) : Prop :=
  a.similarity ≤ b.similarity

instance : DecidableRel bySimilarity :=
  fun a b => inferInstanceAs (Decidable (a.similarity ≤ b.similarity))

instance : IsTotal QueryResult bySimilarity :=
  ⟨fun a b => le_total a.similarity b.similarity⟩

instance : IsTrans QueryResult bySimilarity :=
  ⟨fun _ _ _ hab hbc => le_trans hab hbc⟩

/-- The full vector-search SQL of `search_chunks_by_doc`: join + filter,
project, `ORDER BY similarity` ascending (modelled by a sort), and
`FETCH FIRST :top_k ROWS ONLY`. -/
def vectorSearchRows (dist : Vec → Vec → ℚ) (st : DBState)
    (query_vector : Vec) (doc_name : String) (top_k : Nat) : List QueryResult :=
  (((joinedRows st doc_name).map (selectRow dist query_vector)).insertionSort
    bySimilarity).take top_k

/-- The statements the file issues through `DatabaseManager.execute_query` /
`execute_procedure`: the diagnostic COUNT(*) query, the vector search, and
(for completeness of the gateway model) an arbitrary mutating statement. -/
inductive SqlStmt where
  | selectCount (doc_name : String)
  | selectVectorSearch (query_vector : Vec) (doc_name : String) (top_k : Nat)
  | dml (apply : DBState → DBState)

/-- Row sets returned by `execute_query`. -/
inductive SqlRows where
  | countRow (n : Nat)
  | resultRows (rs : List QueryResult)
  | noRows
  deriving DecidableEq

/-- `DatabaseManager.execute_query(query, params, ..., commit)`:
executes one statement against the durable state. A SELECT never changes the
durable state; a DML statement changes it exactly when `commit` is true
(`conn.commit()` is only called under the `commit` flag). -/
def execute_query (dist : Vec → Vec → ℚ) (st : DBState) (stmt : SqlStmt)
    (commit : Bool) : DBState × SqlRows :=
  match stmt with
  | .selectCount doc_name => (st, .countRow (joinedRows st doc_name).length)
  | .selectVectorSearch qv doc_name top_k =>
      (st, .resultRows (vectorSearchRows dist st qv doc_name top_k))
  | .dml apply => (if commit then apply st else st, .noRows)

/-- Extract a result-row list from `SqlRows` (the Python code reads the
fetched rows of the vector search; `if not rows: return []`). -/
def SqlRows.asResults : SqlRows → List QueryResult
  | .resultRows rs => rs
  | _ => []

/-- `search_chunks_by_doc(db, oci_client, compartment_id, doc_name, query,
top_k)`, threading the durable database state.

Inputs standing for the external world:
* `embedResult` — outcome of `get_embeddings(oci_client, compartment_id,
  [query])`: `Except.error` if it raised, otherwise the returned vectors;
* `countQueryFails` — whether the diagnostic COUNT query raises (its
  exception is caught and only logged);
* `searchQueryFails` — whether the vector-search query raises.

Returns the durable state after the call and the result list. -/
def search_chunks_by_doc (dist : Vec → Vec → ℚ) (st : DBState)
    (embedResult : Except Unit (List Vec))
    (countQueryFails searchQueryFails : Bool)
    (doc_name : String) (top_k : Nat) : DBState × List QueryResult :=
  match embedResult with
  | .error _ => (st, [])
  | .ok embeddings =>
    match embeddings with
    | [query_embedding] =>
      -- diagnostic count query; any failure is caught and only logged
      let st1 :=
        if countQueryFails then st
        else (execute_query dist st (.selectCount doc_name) false).1
      if searchQueryFails then (st1, [])
      else
        let (st2, rows) :=
          execute_query dist st1
            (.selectVectorSearch query_embedding doc_name top_k) false
        (st2, rows.asResults)
    | _ => (st, [])  -- `if not embeddings or len(embeddings) != 1: return []`

/-- The chunks of `doc_name` eligible for retrieval: chunks whose owning
job's `object_name` equals `doc_name` and whose `embed_vector` is non-null
(the spec's `available_embedded_chunks_for_document`). -/
def embeddedChunkCount (st : DBState) (doc_name : String) : Nat :=
  (st.chunks.filter fun c =>
    c.embed_vector.isSome &&
      st.jobs.any fun j => j.job_id == c.job_id && j.object_name == doc_name).length

/-- The shapes of the hosted embedding response probed by `get_embeddings`:
`response.data.embeddings`, `response.embeddings`, or an unexpected shape. -/
inductive EmbedServiceResponse where
  | withDataEmbeddings (embeddings : List Vec)
  | withEmbeddings (embeddings : List Vec)
  | unexpectedShape

/-- `get_embeddings(client, compartment_id, texts)` from
`utils/oci_embedding.py`. `callService` stands for the hosted
`client.embed_text(details)` call (`Except.error` if it raises; the code
logs and re-raises). The second component counts how many times the hosted
service was invoked. -/
def get_embeddings (texts : List (List Char))
    (callService : Unit → Except Unit EmbedServiceResponse) :
    Except Unit (List Vec) × Nat :=
  if texts.isEmpty then (.ok [], 0)  -- `if not texts: return []`
  else
    match callService () with
    | .error e => (.error e, 1)      -- logged, then re-raised
    | .ok resp =>
      match resp with
      | .withDataEmbeddings embeddings => (.ok embeddings, 1)
      | .withEmbeddings embeddings => (.ok embeddings, 1)
      | .unexpectedShape => (.ok [], 1)  -- logged warning, return []

/-- `chat_response.message` as probed by `chat_with_context`: present or
absent attribute, whose `content` attribute may itself be absent. -/
structure ChatMessage where
  content : Option (List Char)

/-- The `chat_response` object: `message`, `content` and `text` attributes,
each possibly absent. -/
structure CohereChatResponse where
  message : Option ChatMessage
  content : Option (List Char)
  text : Option (List Char)

/-- The `response.data` object: `chat_response` and `content` attributes,
each possibly absent. -/
structure ResponseData where
  chat_response : Option CohereChatResponse
  content : Option (List Char)

/-- The hosted chat response object: `data` and `content` attributes, each
possibly absent. -/
structure ChatResponse where
  data : Option ResponseData
  content : Option (List Char)

/-- The final `response.content` probe of the cascade in
`chat_with_context` (`utils/oci_chat.py` lines 81–84): when no earlier probe
matched, try `response.content`, else log a warning and return `None`. -/
def fallbackResponse (response : ChatResponse) : Option (List Char) :=
  match response.content with
  | some c => some c
  | none => none

/-- The `data.content` probe (line 79), falling through to the
response-level probe. -/
def fallbackData (data : ResponseData) (response : ChatResponse) :
    Option (List Char) :=
  match data.content with
  | some c => some c
  | none => fallbackResponse response

/-- After the `message.content` probe fails: `chat_resp.content` (line 75),
then `chat_resp.text` (line 77), then fall through to the `data`-level
probes. -/
def fallbackChatResp (chat_resp : CohereChatResponse) (data : ResponseData)
    (response : ChatResponse) : Option (List Char) :=
  match chat_resp.content with
  | some c => some c
  | none =>
    match chat_resp.text with
    | some t => some t
    | none => fallbackData data response

/-- The attribute-probing cascade of `chat_with_context` (`utils/oci_chat.py`
lines 69–84), applied to a successfully returned response object.  Each
`hasattr` test becomes a match on the corresponding `Option` field. -/
def extractChatText (response : ChatResponse) : Option (List Char) :=
  match response.data with
  | some data =>
    (match data.chat_response with
     | some chat_resp =>
       (match chat_resp.message with
        | some m =>
          (match m.content with
           | some c => some c
           | none => fallbackChatResp chat_resp data response)
        | none => fallbackChatResp chat_resp data response)
     | none => fallbackData data response)
  | none => fallbackResponse response

/-- `chat_with_context(config, compartment_id, context, question, ...)` from
`utils/oci_chat.py`.  `callResult` stands for everything inside the `try`
block up to and including `client.chat(details)`: `Except.error` if any of
it raises (caught, logged, `return None`), otherwise the response object.
Returns the extracted reply text or `none`; the function itself is total
(never raises to its caller). -/
def chat_with_context (callResult : Except Unit ChatResponse)
    (context question : List Char) : Option (List Char) :=
  match callResult with
  | .error _ => none
  | .ok response => extractChatText response

/-- Spec-level predicate: the hosted response has a recognized shape, i.e.
at least one of the probed attribute paths carries a text value. -/
def recognizedShape (r : ChatResponse) : Prop :=
  (∃ d, r.data = some d ∧
    ((∃ cr, d.chat_response = some cr ∧
       ((∃ m, cr.message = some m ∧ (∃ c, m.content = some c)) ∨
        (∃ c, cr.content = some c) ∨ (∃ t, cr.text = some t))) ∨
     (∃ c, d.content = some c))) ∨
  (∃ c, r.content = some c)

/-- What the "Get RAG answer" branch of `render_knowledge_bot_tab` displays. -/
inductive RagOutcome where
  | noAnswer            -- "No chunks found. Cannot generate an answer."
  | answered (text : List Char)
  | llmFailed           -- "Failed to get answer from LLM."
  deriving DecidableEq

/-- Observable trace of the "Get RAG answer" branch: whether the chat
adapter was invoked, the context passed to it if so, and the outcome. -/
structure RagTrace where
  chatCalled : Bool
  contextPassed : Option (List Char)
  outcome : RagOutcome
  deriving DecidableEq

/-- `context = "\n\n".join(c["chunk_text"] for c in chunks)`
(`knowledge_bot.py` line 340). -/
def assembleContext (chunks : List QueryResult) : List Char :=
  List.intercalate [Char.ofNat 10, Char.ofNat 10] (chunks.map fun c => c.chunk_text)

/-- The "Get RAG answer" branch of `render_knowledge_bot_tab` after the
chunk search has produced `chunks` (lines 337–365): if no chunks, display
the no-answer notice and do not call the chat adapter; otherwise assemble
the context, call `chat_with_context`, and display the answer, treating a
falsy reply (`if answer:`) as failure. -/
def ask_rag_step (chunks : List QueryResult)
    (chatCallResult : Except Unit ChatResponse) (question : List Char) :
    RagTrace :=
  if chunks.isEmpty then
    { chatCalled := false, contextPassed := none, outcome := .noAnswer }
  else
    let context := assembleContext chunks
    match chat_with_context chatCallResult context question with
    | some answer =>
      if answer.isEmpty then  -- `if answer:` — the empty string is falsy
        { chatCalled := true, contextPassed := some context, outcome := .llmFailed }
      else
        { chatCalled := true, contextPassed := some context,
          outcome := .answered answer }
    | none =>
      { chatCalled := true, contextPassed := some context, outcome := .llmFailed }

/-- Written from the spec's words, for the context-assembly refinement claim:
the chunk texts joined with a blank-line separator (two newline characters),
in input order, no deduplication or truncation. -/
def specBlankLineJoin : List (List Char) → List Char
  | [] => []
  | [t] => t
  | t :: rest => t ++ [Char.ofNat 10, Char.ofNat 10] ++ specBlankLineJoin rest

/-! ## Helper lemmas -/

/-- With unique job identifiers, one chunk contributes exactly one joined row
when its owning job has the requested `object_name` and its vector is
non-null, and zero rows otherwise. -/
theorem head_len (doc_name : String) (c : Chunk) :
    ∀ (jobs : List IngestJob), (jobs.map IngestJob.job_id).Nodup →
    (((jobs.filter fun j => j.job_id == c.job_id).map fun j => (c, j)).filter
        fun cj => cj.2.object_name == doc_name && cj.1.embed_vector.isSome).length
    = if c.embed_vector.isSome &&
         (jobs.any fun j => j.job_id == c.job_id && j.object_name == doc_name)
      then 1 else 0 := by
  intro jobs
  induction jobs with
  | nil => intro _; simp
  | cons j rest ihj =>
    intro hnd
    simp only [List.map_cons, List.nodup_cons] at hnd
    obtain ⟨hni, hrest⟩ := hnd
    by_cases h1 : (j.job_id == c.job_id) = true
    · have hid : j.job_id = c.job_id := beq_iff_eq.mp h1
      have hrest0 : (rest.filter fun j' => j'.job_id == c.job_id) = [] := by
        refine List.filter_eq_nil_iff.mpr fun j' hj' hp => ?_
        exact hni (List.mem_map.mpr ⟨j', hj', by rw [beq_iff_eq.mp hp, hid]⟩)
      have hanyrest :
          (rest.any fun j' => j'.job_id == c.job_id && j'.object_name == doc_name)
            = false := by
        refine List.any_eq_false.mpr fun j' hj' hp => ?_
        have := ((Bool.and_eq_true _ _).mp hp).1
        exact hni (List.mem_map.mpr ⟨j', hj', by rw [beq_iff_eq.mp this, hid]⟩)
      by_cases h2 : (j.object_name == doc_name && c.embed_vector.isSome) = true
      · obtain ⟨hn, hv⟩ := (Bool.and_eq_true _ _).mp h2
        simp [List.filter_cons, h1, hrest0, List.any_cons, hn, hv]
      · simp only [Bool.and_eq_true, not_and] at h2
        by_cases hv : c.embed_vector.isSome = true
        · have hn : (j.object_name == doc_name) = false := by
            rcases Bool.eq_false_or_eq_true (j.object_name == doc_name) with h | h
            · exact absurd hv (h2 h)
            · exact h
          simp [List.filter_cons, h1, hrest0, List.any_cons, hn, hv, hanyrest]
        · have hv' : c.embed_vector.isSome = false := by
            simpa using hv
          simp [List.filter_cons, h1, hrest0, hv']
    · simp [List.filter_cons, h1, List.any_cons, ihj hrest]

/-- The joined, filtered row set has exactly one row per eligible chunk
(assuming unique job identifiers). -/
theorem joined_length_aux (jobs : List IngestJob) (doc_name : String)
    (hnd : (jobs.map IngestJob.job_id).Nodup) :
    ∀ (chunks : List Chunk),
    ((chunks.flatMap fun c =>
        (jobs.filter fun j => j.job_id == c.job_id).map fun j => (c, j)).filter
      fun cj => cj.2.object_name == doc_name && cj.1.embed_vector.isSome).length
    = (chunks.filter fun c => c.embed_vector.isSome &&
        jobs.any fun j => j.job_id == c.job_id && j.object_name == doc_name).length := by
  intro chunks
  induction chunks with
  | nil => simp
  | cons c rest ih =>
    rw [List.flatMap_cons, List.filter_append, List.length_append, ih,
      head_len doc_name c jobs hnd, List.filter_cons]
    by_cases hq : (c.embed_vector.isSome &&
        (jobs.any fun j => j.job_id == c.job_id && j.object_name == doc_name)) = true
    · simp [hq, Nat.add_comm]
    · simp [hq]

/-- `joinedRows` counts exactly the eligible chunks of the document. -/
theorem joinedRows_length (st : DBState) (doc_name : String)
    (hnd : (st.jobs.map IngestJob.job_id).Nodup) :
    (joinedRows st doc_name).length = embeddedChunkCount st doc_name :=
  joined_length_aux st.jobs doc_name hnd st.chunks

/-- When the query embedding succeeds with exactly one vector and the vector
search does not raise, retrieval returns exactly the rows of the vector
search (whatever the diagnostic count query did). -/
theorem search_ok_eq (dist : Vec → Vec → ℚ) (st : DBState) (qv : Vec)
    (countQueryFails : Bool) (doc_name : String) (top_k : Nat) :
    (search_chunks_by_doc dist st (.ok [qv]) countQueryFails false
        doc_name top_k).2
      = vectorSearchRows dist st qv doc_name top_k := by
  cases countQueryFails <;>
    simp [search_chunks_by_doc, execute_query, SqlRows.asResults]

/-- Every row of the vector search comes from an eligible chunk of the
requested document, projected by the SELECT list. -/
theorem mem_vectorSearchRows {dist : Vec → Vec → ℚ} {st : DBState} {qv : Vec}
    {doc_name : String} {top_k : Nat} {r : QueryResult}
    (hr : r ∈ vectorSearchRows dist st qv doc_name top_k) :
    ∃ c ∈ st.chunks, ∃ j ∈ st.jobs,
      j.job_id = c.job_id ∧ j.object_name = doc_name ∧
      c.embed_vector.isSome = true ∧ r = selectRow dist qv (c, j) := by
  have h1 : r ∈ ((joinedRows st doc_name).map
      (selectRow dist qv)).insertionSort bySimilarity :=
    List.mem_of_mem_take hr
  rw [List.mem_insertionSort] at h1
  obtain ⟨cj, hcj, rfl⟩ := List.mem_map.mp h1
  obtain ⟨hmem, hpred⟩ := List.mem_filter.mp hcj
  obtain ⟨c, hc, hcj2⟩ := List.mem_flatMap.mp hmem
  obtain ⟨j, hj, rfl⟩ := List.mem_map.mp hcj2
  obtain ⟨hjmem, hjid⟩ := List.mem_filter.mp hj
  obtain ⟨hname, hvec⟩ := (Bool.and_eq_true _ _).mp hpred
  exact ⟨c, hc, j, hjmem, beq_iff_eq.mp hjid, beq_iff_eq.mp hname, hvec, rfl⟩

/-- Any non-empty retrieval result arises from a successful single-vector
embedding and a non-failing vector search. -/
theorem mem_search {dist : Vec → Vec → ℚ} {st : DBState}
    {embedResult : Except Unit (List Vec)}
    {countQueryFails searchQueryFails : Bool} {doc_name : String} {top_k : Nat}
    {r : QueryResult}
    (hr : r ∈ (search_chunks_by_doc dist st embedResult countQueryFails
        searchQueryFails doc_name top_k).2) :
    ∃ qv, embedResult = .ok [qv] ∧ searchQueryFails = false ∧
      r ∈ vectorSearchRows dist st qv doc_name top_k := by
  cases embedResult with
  | error e => simp [search_chunks_by_doc] at hr
  | ok es =>
    match es with
    | [] => simp [search_chunks_by_doc] at hr
    | [qv] =>
      cases searchQueryFails with
      | true => cases countQueryFails <;> simp [search_chunks_by_doc] at hr
      | false =>
        refine ⟨qv, rfl, rfl, ?_⟩
        rw [search_ok_eq] at hr
        exact hr
    | v1 :: v2 :: rest => simp [search_chunks_by_doc] at hr

/-- The probing cascade succeeds exactly on recognized response shapes. -/
theorem extractChatText_isSome_iff (response : ChatResponse) :
    (extractChatText response).isSome ↔ recognizedShape response := by
  obtain ⟨data, rcontent⟩ := response
  cases data with
  | none =>
    cases rcontent <;>
      simp [extractChatText, fallbackResponse, recognizedShape]
  | some d =>
    obtain ⟨cr, dcontent⟩ := d
    cases cr with
    | none =>
      cases dcontent <;> cases rcontent <;>
        simp [extractChatText, fallbackData, fallbackResponse, recognizedShape]
    | some cresp =>
      obtain ⟨message, ccontent, ctext⟩ := cresp
      cases message with
      | none =>
        cases ccontent <;> cases ctext <;> cases dcontent <;> cases rcontent <;>
          simp [extractChatText, fallbackChatResp, fallbackData,
            fallbackResponse, recognizedShape]
      | some m =>
        obtain ⟨mcontent⟩ := m
        cases mcontent <;> cases ccontent <;> cases ctext <;> cases dcontent <;>
          cases rcontent <;>
          simp [extractChatText, fallbackChatResp, fallbackData,
            fallbackResponse, recognizedShape]

/-- `"\n\n".join(texts)` equals the spec's blank-line-separated
concatenation. -/
theorem intercalate_eq_specBlankLineJoin :
    ∀ ts : List (List Char),
      List.intercalate [Char.ofNat 10, Char.ofNat 10] ts = specBlankLineJoin ts := by
  intro ts
  induction ts with
  | nil => simp [List.intercalate, specBlankLineJoin]
  | cons t rest ih =>
    cases rest with
    | nil => simp [List.intercalate, specBlankLineJoin]
    | cons t2 rest2 =>
      have hstep : List.intercalate [Char.ofNat 10, Char.ofNat 10] (t :: t2 :: rest2)
          = t ++ [Char.ofNat 10, Char.ofNat 10]
            ++ List.intercalate [Char.ofNat 10, Char.ofNat 10] (t2 :: rest2) := by
        simp [List.intercalate, List.intersperse]
      rw [hstep, ih]
      simp [specBlankLineJoin]

/-! ## Concrete sample data used by the witnesses -/

/-- A concrete distance function (the properties hold for any). -/
def wDist : Vec → Vec → ℚ := fun _ _ => 0

/-- A concrete ingest job. -/
def wJob : IngestJob := { job_id := 1, object_name := "guide.pdf" }

/-- A concrete embedded chunk owned by `wJob`. -/
def wChunk : Chunk :=
  { job_id := 1, chunk_id := 1, chunk_text := ['h', 'i'],
    embed_vector := some [1] }

/-- A concrete database state with one job and one embedded chunk. -/
def wState : DBState := { jobs := [wJob], chunks := [wChunk] }

/-- The query result produced from `wChunk` under `wDist`. -/
def wResult : QueryResult := selectRow wDist [1] (wChunk, wJob)

/-! ## Claims -/

/-- C1: for every document name, query and top_k, if the embedding call
raises, or returns a number of vectors different from 1, or the similarity
query raises, then `search_chunks_by_doc` returns an empty list (and, being
a total function of those failure inputs, raises nothing to its caller). -/
theorem retrieve_degrades_to_empty_on_failure (dist : Vec → Vec → ℚ)
    (st : DBState) (embedResult : Except Unit (List Vec))
    (countQueryFails searchQueryFails : Bool) (doc_name : String) (top_k : Nat)
    (h : embedResult = .error () ∨
      (∃ es, embedResult = .ok es ∧ es.length ≠ 1) ∨ searchQueryFails = true) :
    (search_chunks_by_doc dist st embedResult countQueryFails searchQueryFails
        doc_name top_k).2 = [] := by
  rcases h with h | ⟨es, rfl, hlen⟩ | h
  · subst h; rfl
  · match es, hlen with
    | [], _ => rfl
    | [qv], hlen => exact absurd rfl hlen
    | v1 :: v2 :: rest, _ => rfl
  · subst h
    cases embedResult with
    | error e => rfl
    | ok es =>
      match es with
      | [] => rfl
      | [qv] => cases countQueryFails <;> simp [search_chunks_by_doc]
      | v1 :: v2 :: rest => rfl

/-- Witness for C1 at a concrete failing input (the embedding call raises). -/
theorem retrieve_degrades_to_empty_on_failure_witness :
    (search_chunks_by_doc wDist wState (.error ()) false false
        "guide.pdf" 10).2 = [] :=
  retrieve_degrades_to_empty_on_failure wDist wState (.error ()) false false
    "guide.pdf" 10 (Or.inl rfl)

/-- C2: with unique job identifiers, a positive `top_k = k`, a successful
single-vector embedding and a successful similarity query, the result length
is exactly `min k (number of chunks of the document with non-null
embedding vector)`. -/
theorem retrieve_length_eq_min (dist : Vec → Vec → ℚ) (st : DBState) (qv : Vec)
    (countQueryFails : Bool) (doc_name : String) (top_k : Nat)
    (hnd : (st.jobs.map IngestJob.job_id).Nodup) (hpos : 0 < top_k) :
    (search_chunks_by_doc dist st (.ok [qv]) countQueryFails false
        doc_name top_k).2.length
      = min top_k (embeddedChunkCount st doc_name) := by
  rw [search_ok_eq]
  unfold vectorSearchRows
  rw [List.length_take, List.length_insertionSort, List.length_map,
    joinedRows_length st doc_name hnd]

/-- Witness for C2 at a concrete state: one embedded chunk, `top_k = 3`,
result length `min 3 1 = 1`. -/
theorem retrieve_length_eq_min_witness :
    (search_chunks_by_doc wDist wState (.ok [[1]]) false false
        "guide.pdf" 3).2.length
      = min 3 (embeddedChunkCount wState "guide.pdf") :=
  retrieve_length_eq_min wDist wState [1] false "guide.pdf" 3
    (by decide) (by decide)

/-- C3: for every input (including all failure modes), the returned sequence
is ordered by cosine distance, monotonically non-decreasing, best match
(smallest distance) first. -/
theorem retrieve_sorted_by_distance (dist : Vec → Vec → ℚ) (st : DBState)
    (embedResult : Except Unit (List Vec))
    (countQueryFails searchQueryFails : Bool) (doc_name : String)
    (top_k : Nat) :
    List.Pairwise bySimilarity
      (search_chunks_by_doc dist st embedResult countQueryFails
        searchQueryFails doc_name top_k).2 := by
  have hsorted : ∀ l : List QueryResult,
      List.Pairwise bySimilarity ((l.insertionSort bySimilarity).take top_k) :=
    fun l => List.Pairwise.sublist (List.take_sublist _ _)
      (List.sorted_insertionSort bySimilarity l)
  cases embedResult with
  | error e => simp [search_chunks_by_doc]
  | ok es =>
    match es with
    | [] => simp [search_chunks_by_doc]
    | [qv] =>
      cases searchQueryFails with
      | true => cases countQueryFails <;> simp [search_chunks_by_doc]
      | false =>
        rw [search_ok_eq]
        exact hsorted _
    | v1 :: v2 :: rest => simp [search_chunks_by_doc]

/-- C4: every returned `QueryResult` corresponds to a stored chunk whose
owning job's `object_name` equals the requested document name and whose
embedding vector is non-null. -/
theorem retrieve_results_from_requested_document (dist : Vec → Vec → ℚ)
    (st : DBState) (embedResult : Except Unit (List Vec))
    (countQueryFails searchQueryFails : Bool) (doc_name : String)
    (top_k : Nat) (r : QueryResult)
    (hr : r ∈ (search_chunks_by_doc dist st embedResult countQueryFails
        searchQueryFails doc_name top_k).2) :
    ∃ c ∈ st.chunks, ∃ j ∈ st.jobs,
      j.job_id = c.job_id ∧ j.object_name = doc_name ∧
      c.embed_vector.isSome = true ∧
      r.job_id = c.job_id ∧ r.chunk_id = c.chunk_id ∧
      r.object_name = doc_name := by
  obtain ⟨qv, -, -, hmem⟩ := mem_search hr
  obtain ⟨c, hc, j, hj, hid, hname, hvec, rfl⟩ := mem_vectorSearchRows hmem
  exact ⟨c, hc, j, hj, hid, hname, hvec, rfl, rfl, by simp [selectRow, hname]⟩

/-- Witness for C4 at a concrete state: the single result of a successful
search over `wState`. -/
theorem retrieve_results_from_requested_document_witness :
    ∃ c ∈ wState.chunks, ∃ j ∈ wState.jobs,
      j.job_id = c.job_id ∧ j.object_name = "guide.pdf" ∧
      c.embed_vector.isSome = true ∧
      wResult.job_id = c.job_id ∧ wResult.chunk_id = c.chunk_id ∧
      wResult.object_name = "guide.pdf" :=
  retrieve_results_from_requested_document wDist wState (.ok [[1]]) false false
    "guide.pdf" 3 wResult (by decide)

/-- C5: every returned `chunk_text` is a prefix of the stored chunk text of
length at most 8000 characters. -/
theorem retrieve_chunk_text_prefix_bounded (dist : Vec → Vec → ℚ)
    (st : DBState) (embedResult : Except Unit (List Vec))
    (countQueryFails searchQueryFails : Bool) (doc_name : String)
    (top_k : Nat) (r : QueryResult)
    (hr : r ∈ (search_chunks_by_doc dist st embedResult countQueryFails
        searchQueryFails doc_name top_k).2) :
    ∃ c ∈ st.chunks, List.IsPrefix r.chunk_text c.chunk_text ∧
      r.chunk_text.length ≤ 8000 := by
  obtain ⟨qv, -, -, hmem⟩ := mem_search hr
  obtain ⟨c, hc, j, -, -, -, -, rfl⟩ := mem_vectorSearchRows hmem
  refine ⟨c, hc, List.take_prefix _ _, ?_⟩
  rw [show (selectRow dist qv (c, j)).chunk_text = c.chunk_text.take 8000 from rfl,
    List.length_take]
  exact min_le_left _ _

/-- Witness for C5 at a concrete state. -/
theorem retrieve_chunk_text_prefix_bounded_witness :
    ∃ c ∈ wState.chunks, List.IsPrefix wResult.chunk_text c.chunk_text ∧
      wResult.chunk_text.length ≤ 8000 :=
  retrieve_chunk_text_prefix_bounded wDist wState (.ok [[1]]) false false
    "guide.pdf" 3 wResult (by decide)

/-- C6: for every non-empty result sequence, the context passed to the chat
adapter is exactly the chunk texts joined, in input order, by a blank-line
separator (two newline characters), with no deduplication or truncation. -/
theorem context_is_blank_line_join (chunks : List QueryResult)
    (chatCallResult : Except Unit ChatResponse) (question : List Char)
    (hne : chunks ≠ []) :
    (ask_rag_step chunks chatCallResult question).contextPassed
      = some (specBlankLineJoin (chunks.map fun c => c.chunk_text)) := by
  have hassemble : assembleContext chunks
      = specBlankLineJoin (chunks.map fun c => c.chunk_text) :=
    intercalate_eq_specBlankLineJoin _
  have hempty : chunks.isEmpty = false := by
    cases chunks with
    | nil => exact absurd rfl hne
    | cons a l => rfl
  suffices hsuff : (ask_rag_step chunks chatCallResult question).contextPassed
      = some (assembleContext chunks) by
    rw [hsuff, hassemble]
  rcases hcc : chat_with_context chatCallResult (assembleContext chunks)
      question with - | a
  · simp [ask_rag_step, hempty, hcc]
  · by_cases ha : a.isEmpty <;>
      simp [ask_rag_step, hempty, hcc, ha]

/-- Witness for C6 on a concrete one-element result sequence. -/
theorem context_is_blank_line_join_witness :
    (ask_rag_step [wResult] (.error ()) []).contextPassed
      = some (specBlankLineJoin ([wResult].map fun c => c.chunk_text)) :=
  context_is_blank_line_join [wResult] (.error ()) [] (by decide)

/-- C7: whenever retrieval returns an empty sequence, the RAG branch never
invokes the chat adapter and short-circuits to the no-answer outcome. -/
theorem empty_retrieval_short_circuits (dist : Vec → Vec → ℚ) (st : DBState)
    (embedResult : Except Unit (List Vec))
    (countQueryFails searchQueryFails : Bool) (doc_name : String)
    (top_k : Nat) (chatCallResult : Except Unit ChatResponse)
    (question : List Char)
    (h : (search_chunks_by_doc dist st embedResult countQueryFails
        searchQueryFails doc_name top_k).2 = []) :
    (ask_rag_step (search_chunks_by_doc dist st embedResult countQueryFails
        searchQueryFails doc_name top_k).2 chatCallResult question).chatCalled
        = false ∧
    (ask_rag_step (search_chunks_by_doc dist st embedResult countQueryFails
        searchQueryFails doc_name top_k).2 chatCallResult question).outcome
        = .noAnswer := by
  rw [h]
  exact ⟨rfl, rfl⟩

/-- Witness for C7 at a concrete failing retrieval. -/
theorem empty_retrieval_short_circuits_witness :
    (ask_rag_step (search_chunks_by_doc wDist wState (.error ()) false false
        "guide.pdf" 10).2 (.error ()) []).chatCalled = false ∧
    (ask_rag_step (search_chunks_by_doc wDist wState (.error ()) false false
        "guide.pdf" 10).2 (.error ()) []).outcome = .noAnswer :=
  empty_retrieval_short_circuits wDist wState (.error ()) false false
    "guide.pdf" 10 (.error ()) [] rfl

/-- C8: `chat_with_context` is a total function of its inputs (never raises);
it yields a reply exactly when the hosted call succeeded and the response has
a recognized shape, and the absence value `none` otherwise (call failure or
unparseable shape). -/
theorem chat_with_context_total_none_iff
    (callResult : Except Unit ChatResponse) (context question : List Char) :
    (chat_with_context callResult context question).isSome
      ↔ ∃ response, callResult = .ok response ∧ recognizedShape response := by
  cases callResult with
  | error e => simp [chat_with_context]
  | ok response => simp [chat_with_context, extractChatText_isSome_iff]

/-- C9: `search_chunks_by_doc` is read-only: the durable database state
after the call equals the state before it, for every input. -/
theorem search_chunks_by_doc_read_only (dist : Vec → Vec → ℚ) (st : DBState)
    (embedResult : Except Unit (List Vec))
    (countQueryFails searchQueryFails : Bool) (doc_name : String)
    (top_k : Nat) :
    (search_chunks_by_doc dist st embedResult countQueryFails searchQueryFails
        doc_name top_k).1 = st := by
  cases embedResult with
  | error e => rfl
  | ok es =>
    match es with
    | [] => rfl
    | [qv] =>
      cases searchQueryFails <;> cases countQueryFails <;>
        simp [search_chunks_by_doc, execute_query]
    | v1 :: v2 :: rest => rfl

/-- C10: `get_embeddings` on an empty text list returns an empty list
immediately, without invoking the hosted embedding service and without
raising. -/
theorem get_embeddings_empty_input
    (callService : Unit → Except Unit EmbedServiceResponse) :
    get_embeddings [] callService = (.ok [], 0) := rfl
